import Mathlib

/-!
Shallow embedding of the data-management layer of the Manga-Track
application (`src/script.js`, class `MangaTracker`, lines 1–301).

Modelling choices:
* Timestamps are `Nat` (milliseconds since the epoch).  The JavaScript code
  obtains them via `new Date().toISOString()`; every operation here takes the
  current time `now` as an explicit parameter.
* Record ids are `Nat`.  `generateId` in the source derives an id from
  `Date.now()` plus `Math.random()`; since that is nondeterministic, each
  creating operation takes the generated id as an explicit parameter, and
  freshness of the generated id is a hypothesis where a claim needs it.
* JavaScript `x || d` defaulting is modelled on `Option` values; for string
  and numeric fields where JavaScript treats `""` and `0` as falsy, helper
  functions reproduce that behaviour.
* Numbers (`currentChapter`, `chaptersRead`, `rating`) are `Int`.
-/

namespace MangaTrack

/-- JavaScript `v || d` for an optional string field: `undefined`/`null` and
the empty string both fall back to the default. -/
def jsOrStr (v : Option String) (d : String) : String :=
  match v with
  | some x => if x = "" then d else x
  | none => d

/-- JavaScript `v || null` for an optional string field: the empty string is
falsy and becomes `null`. -/
def jsOrNullStr (v : Option String) : Option String :=
  match v with
  | some x => if x = "" then none else some x
  | none => none

/-- JavaScript `v || null` for an optional numeric field: `0` is falsy and
becomes `null`. -/
def jsOrNullInt (v : Option Int) : Option Int :=
  match v with
  | some x => if x = 0 then none else some x
  | none => none

/-- JavaScript `v || d` for an optional numeric field. -/
def jsOrInt (v : Option Int) (d : Int) : Int :=
  match v with
  | some x => if x = 0 then d else x
  | none => d

/-- A tracked title (`addManga` builds these records). -/
structure Manga where
  id : Nat
  title : String
  type : String
  status : String
  currentChapter : Int
  totalChapters : Option Int
  rating : Option Int
  tags : List String
  notes : String
  coverImage : Option String
  author : String
  startDate : Nat
  endDate : Option Nat
  lastRead : Option Nat
  createdAt : Nat
  updatedAt : Nat
  deriving DecidableEq, Repr

/-- A reading session (`startReadingSession` builds these records). -/
structure Session where
  id : Nat
  mangaId : Option Nat
  startTime : Nat
  endTime : Option Nat
  chaptersRead : Int
  active : Bool
  deriving DecidableEq, Repr

/-- A bookmark (`addBookmark`). -/
structure Bookmark where
  id : Nat
  mangaId : Option Nat
  chapterNumber : Int
  note : String
  createdAt : Nat
  deriving DecidableEq, Repr

/-- A history entry (`addToHistory`). -/
structure HistoryEntry where
  id : Nat
  mangaId : Option Nat
  action : String
  details : List (String × String)
  timestamp : Nat
  deriving DecidableEq, Repr

/-- Application settings (`initializeDefaultData`). -/
structure Settings where
  dailyGoal : Int
  theme : String
  notifications : Bool
  deriving DecidableEq, Repr

/-- The persisted document: the `this.data` object of `MangaTracker`. -/
structure Store where
  manga : List Manga
  readingSessions : List Session
  settings : Settings
  tags : List String
  bookmarks : List Bookmark
  history : List HistoryEntry
  deriving DecidableEq, Repr

/-- The store produced by `initializeDefaultData` on first run. -/
def emptyStore : Store :=
  { manga := []
    readingSessions := []
    settings := { dailyGoal := 5, theme := "light", notifications := true }
    tags := ["Action", "Romance", "Comedy", "Drama", "Fantasy", "Sci-Fi"]
    bookmarks := []
    history := [] }

/-- Caller-supplied fields for `addManga` (`mangaData`); `none` models an
absent (`undefined`) property. -/
structure MangaData where
  title : String
  type : Option String := none
  status : Option String := none
  currentChapter : Option Int := none
  totalChapters : Option Int := none
  rating : Option Int := none
  tags : Option (List String) := none
  notes : Option String := none
  coverImage : Option String := none
  author : Option String := none
  startDate : Option Nat := none
  endDate : Option Nat := none
  lastRead : Option Nat := none
  deriving Repr

/-- `addManga(mangaData)` (script.js 50–73): build the record with defaults,
push it onto `data.manga`, return it.  `newId` is the value produced by
`generateId()`, `now` the current time. -/
def addManga (now newId : Nat) (d : MangaData) (s : Store) : Manga × Store :=
  let manga : Manga :=
    { id := newId
      title := d.title
      type := jsOrStr d.type "manga"
      status := jsOrStr d.status "reading"
      currentChapter := jsOrInt d.currentChapter 0
      totalChapters := jsOrNullInt d.totalChapters
      rating := jsOrNullInt d.rating
      tags := d.tags.getD []
      notes := jsOrStr d.notes ""
      coverImage := jsOrNullStr d.coverImage
      author := jsOrStr d.author ""
      startDate := d.startDate.getD now
      endDate := d.endDate
      lastRead := d.lastRead
      createdAt := now
      updatedAt := now }
  (manga, { s with manga := s.manga ++ [manga] })

/-- A partial update for `updateManga` (the `updates` object spread over the
existing record); `none` models a property absent from the update. -/
structure MangaPatch where
  id : Option Nat := none
  title : Option String := none
  type : Option String := none
  status : Option String := none
  currentChapter : Option Int := none
  totalChapters : Option (Option Int) := none
  rating : Option (Option Int) := none
  tags : Option (List String) := none
  notes : Option String := none
  coverImage : Option (Option String) := none
  author : Option String := none
  startDate : Option Nat := none
  endDate : Option (Option Nat) := none
  lastRead : Option (Option Nat) := none
  deriving Repr

/-- `{...existing, ...updates, updatedAt: now}` — shallow field replacement
followed by the unconditional `updatedAt` stamp. -/
def applyPatch (p : MangaPatch) (m : Manga) (now : Nat) : Manga :=
  { id := p.id.getD m.id
    title := p.title.getD m.title
    type := p.type.getD m.type
    status := p.status.getD m.status
    currentChapter := p.currentChapter.getD m.currentChapter
    totalChapters := p.totalChapters.getD m.totalChapters
    rating := p.rating.getD m.rating
    tags := p.tags.getD m.tags
    notes := p.notes.getD m.notes
    coverImage := p.coverImage.getD m.coverImage
    author := p.author.getD m.author
    startDate := p.startDate.getD m.startDate
    endDate := p.endDate.getD m.endDate
    lastRead := p.lastRead.getD m.lastRead
    createdAt := m.createdAt
    updatedAt := now }

/-- Replace the first record whose id matches (the `findIndex` + in-place
assignment of `updateManga`), returning the updated record. -/
def updateMangaList (now id : Nat) (p : MangaPatch) :
    List Manga → Option Manga × List Manga
  | [] => (none, [])
  | m :: ms =>
    if m.id = id then
      let m2 := applyPatch p m now
      (some m2, m2 :: ms)
    else
      let r := updateMangaList now id p ms
      (r.1, m :: r.2)

/-- `updateManga(id, updates)` (script.js 75–87): merge `updates` into the
first matching record and refresh `updatedAt`; `null` when `id` matches no
record. -/
def updateManga (now id : Nat) (p : MangaPatch) (s : Store) :
    Option Manga × Store :=
  let r := updateMangaList now id p s.manga
  (r.1, { s with manga := r.2 })

/-- Remove the first record whose id matches (the `findIndex` + `splice` of
`deleteManga`), returning the removed record. -/
def deleteMangaList (id : Nat) : List Manga → Option Manga × List Manga
  | [] => (none, [])
  | m :: ms =>
    if m.id = id then (some m, ms)
    else
      let r := deleteMangaList id ms
      (r.1, m :: r.2)

/-- `deleteManga(id)` (script.js 89–97). -/
def deleteManga (id : Nat) (s : Store) : Option Manga × Store :=
  let r := deleteMangaList id s.manga
  (r.1, { s with manga := r.2 })

/-- `getManga(id)` (script.js 99–101): `find` on `data.manga`. -/
def getManga (id : Nat) (s : Store) : Option Manga :=
  s.manga.find? (fun m => m.id = id)

/-- `startReadingSession(mangaId)` (script.js 108–121): push a fresh active
session.  `newId` is the value of `generateId()`. -/
def startReadingSession (now newId : Nat) (mangaId : Option Nat) (s : Store) :
    Session × Store :=
  let sess : Session :=
    { id := newId
      mangaId := mangaId
      startTime := now
      endTime := none
      chaptersRead := 0
      active := true }
  (sess, { s with readingSessions := s.readingSessions ++ [sess] })

/-- The in-place mutation of `endReadingSession` on the found session:
`endTime = now`, `chaptersRead = c`, `active = false`. -/
def closeSession (now : Nat) (c : Int) (sess : Session) : Session :=
  { sess with endTime := some now, chaptersRead := c, active := false }

/-- Close the first session whose id matches (the `find` + in-place mutation
of `endReadingSession`), returning the closed session. -/
def endSessionList (now sid : Nat) (c : Int) :
    List Session → Option Session × List Session
  | [] => (none, [])
  | sess :: rest =>
    if sess.id = sid then
      let sess2 := closeSession now c sess
      (some sess2, sess2 :: rest)
    else
      let r := endSessionList now sid c rest
      (r.1, sess :: r.2)

/-- `endReadingSession(sessionId, chaptersRead)` (script.js 123–145): close
the session; if it is bound to a manga and `chaptersRead > 0`, advance that
manga's `currentChapter` and stamp `lastRead` via `updateManga`. -/
def endReadingSession (now sid : Nat) (c : Int) (s : Store) :
    Option Session × Store :=
  match endSessionList now sid c s.readingSessions with
  | (none, _) => (none, s)
  | (some sess2, sessions2) =>
    let s1 := { s with readingSessions := sessions2 }
    match sess2.mangaId with
    | some mid =>
      if c > 0 then
        match getManga mid s1 with
        | some manga =>
          let r := updateManga now manga.id
            { currentChapter := some (manga.currentChapter + c)
              lastRead := some (some now) } s1
          (some sess2, r.2)
        | none => (some sess2, s1)
      else (some sess2, s1)
    | none => (some sess2, s1)

/-- `getActiveSession()` (script.js 147–149). -/
def getActiveSession (s : Store) : Option Session :=
  s.readingSessions.find? (fun sess => sess.active)

/-- `addToHistory(mangaId, action, details)` (script.js 278–296): prepend the
entry, then keep only the first 100. -/
def addToHistory (now newId : Nat) (mangaId : Option Nat) (action : String)
    (details : List (String × String)) (s : Store) : HistoryEntry × Store :=
  let entry : HistoryEntry :=
    { id := newId
      mangaId := mangaId
      action := action
      details := details
      timestamp := now }
  let h := entry :: s.history
  let h := if h.length > 100 then h.take 100 else h
  (entry, { s with history := h })

/-- `getRecentActivity(limit)` (script.js 298–300). -/
def getRecentActivity (limit : Nat) (s : Store) : List HistoryEntry :=
  s.history.take limit

/-- `addBookmark(mangaId, chapterNumber, note)` (script.js 253–265). -/
def addBookmark (now newId : Nat) (mangaId : Option Nat) (chapterNumber : Int)
    (note : String) (s : Store) : Bookmark × Store :=
  let b : Bookmark :=
    { id := newId
      mangaId := mangaId
      chapterNumber := chapterNumber
      note := note
      createdAt := now }
  (b, { s with bookmarks := s.bookmarks ++ [b] })

/-- Remove the first bookmark whose id matches (`removeBookmark`,
script.js 267–275). -/
def removeBookmarkList (id : Nat) : List Bookmark → Option Bookmark × List Bookmark
  | [] => (none, [])
  | b :: bs =>
    if b.id = id then (some b, bs)
    else
      let r := removeBookmarkList id bs
      (r.1, b :: r.2)

/-- `removeBookmark(id)` (script.js 267–275). -/
def removeBookmark (id : Nat) (s : Store) : Option Bookmark × Store :=
  let r := removeBookmarkList id s.bookmarks
  (r.1, { s with bookmarks := r.2 })

/-! ### Statistics (script.js 152–218) -/

/-- `Math.round(a / b)` for an integer numerator and positive integer
denominator, evaluated on exact rationals: `Math.round(x) = ⌊x + 1/2⌋`. -/
def jsRound (a b : Int) : Int :=
  Int.fdiv (2 * a + b) (2 * b)

/-- The closed (inactive) sessions: `readingSessions.filter(s => !s.active)`. -/
def closedSessions (s : Store) : List Session :=
  s.readingSessions.filter (fun sess => !sess.active)

/-- The `reduce` of `calculateAverageSessionTime`: sum of `endTime - startTime`
in milliseconds over the sessions that have both timestamps. -/
def totalSessionTime (l : List Session) : Int :=
  l.foldl
    (fun acc sess =>
      match sess.endTime with
      | some e => acc + ((e : Int) - (sess.startTime : Int))
      | none => acc)
    0

/-- `calculateAverageSessionTime(sessions)` (script.js 174–187): 0 on an empty
list, otherwise the millisecond total divided by the count, converted to
minutes and rounded. -/
def calculateAverageSessionTime (l : List Session) : Int :=
  if l.length = 0 then 0
  else jsRound (totalSessionTime l) ((l.length : Int) * 60000)

/-- Milliseconds per day, used to model calendar-day bucketing of
`toDateString()` (the model uses UTC days). -/
def msPerDay : Nat := 86400000

/-- `getDailyProgress()` (script.js 189–196): chapters read in closed sessions
whose end time falls on the same calendar day as `now`. -/
def getDailyProgress (now : Nat) (s : Store) : Int :=
  (s.readingSessions.filter
    (fun sess =>
      !sess.active &&
      match sess.endTime with
      | some e => e / msPerDay = now / msPerDay
      | none => false)).foldl (fun acc sess => acc + sess.chaptersRead) 0

/-- `getWeeklyProgress()` (script.js 198–207): chapters read in closed
sessions ended within the last 7 days. -/
def getWeeklyProgress (now : Nat) (s : Store) : Int :=
  (s.readingSessions.filter
    (fun sess =>
      !sess.active &&
      match sess.endTime with
      | some e => now - 7 * msPerDay ≤ e
      | none => false)).foldl (fun acc sess => acc + sess.chaptersRead) 0

/-- `getMonthlyProgress()` (script.js 209–218); `setMonth(getMonth() - 1)` is
modelled as a 30-day window. -/
def getMonthlyProgress (now : Nat) (s : Store) : Int :=
  (s.readingSessions.filter
    (fun sess =>
      !sess.active &&
      match sess.endTime with
      | some e => now - 30 * msPerDay ≤ e
      | none => false)).foldl (fun acc sess => acc + sess.chaptersRead) 0

/-- The record returned by `getStatistics()`. -/
structure Stats where
  totalManga : Nat
  currentlyReading : Nat
  completed : Nat
  onHold : Nat
  dropped : Nat
  planToRead : Nat
  totalChaptersRead : Int
  totalReadingSessions : Nat
  averageSessionTime : Int
  dailyProgress : Int
  weeklyProgress : Int
  monthlyProgress : Int
  deriving DecidableEq, Repr

/-- `getStatistics()` (script.js 152–172). -/
def getStatistics (now : Nat) (s : Store) : Stats :=
  let sessions := closedSessions s
  { totalManga := s.manga.length
    currentlyReading := (s.manga.filter (fun m => m.status = "reading")).length
    completed := (s.manga.filter (fun m => m.status = "completed")).length
    onHold := (s.manga.filter (fun m => m.status = "on-hold")).length
    dropped := (s.manga.filter (fun m => m.status = "dropped")).length
    planToRead := (s.manga.filter (fun m => m.status = "plan-to-read")).length
    totalChaptersRead := s.manga.foldl (fun acc m => acc + m.currentChapter) 0
    totalReadingSessions := sessions.length
    averageSessionTime := calculateAverageSessionTime sessions
    dailyProgress := getDailyProgress now s
    weeklyProgress := getWeeklyProgress now s
    monthlyProgress := getMonthlyProgress now s }

/-! ### Search (script.js 221–250) -/

/-- Does the first list occur as a prefix of the second? -/
def charsStartWith : List Char → List Char → Bool
  | [], _ => true
  | _ :: _, [] => false
  | a :: as, b :: bs => a = b && charsStartWith as bs

/-- Does the first list occur as a contiguous sublist of the second?
(JavaScript `String.prototype.includes`.) -/
def charsHasSub (needle : List Char) : List Char → Bool
  | [] => charsStartWith needle []
  | b :: bs => charsStartWith needle (b :: bs) || charsHasSub needle bs

/-- `s.toLowerCase()` as a character list (ASCII case mapping). -/
def lowerChars (s : String) : List Char :=
  s.data.map Char.toLower

/-- The `filters` object of `searchManga`; `none` models an absent property. -/
structure SearchFilters where
  status : Option String := none
  type : Option String := none
  tags : Option (List String) := none
  deriving Repr

/-- The text-search predicate of `searchManga`: case-insensitive substring
match against title, author, and tags (`searchTerm` is the lowered query). -/
def textMatches (searchTerm : List Char) (m : Manga) : Bool :=
  charsHasSub searchTerm (lowerChars m.title) ||
  charsHasSub searchTerm (lowerChars m.author) ||
  m.tags.any (fun tag => charsHasSub searchTerm (lowerChars tag))

/-- The `if (filters.status)` stage of `searchManga`: exact-match filter on
`status`, skipped for an absent (or falsy empty) value. -/
def filterByStatus (o : Option String) (l : List Manga) : List Manga :=
  match o with
  | some st => l.filter (fun m => m.status = st)
  | none => l

/-- The `if (filters.type)` stage of `searchManga`: exact-match filter on
`type`, skipped for an absent (or falsy empty) value. -/
def filterByType (o : Option String) (l : List Manga) : List Manga :=
  match o with
  | some ty => l.filter (fun m => m.type = ty)
  | none => l

/-- The `if (filters.tags && filters.tags.length > 0)` stage of `searchManga`:
keep records having at least one tag from the filter set. -/
def filterByTags (o : Option (List String)) (l : List Manga) : List Manga :=
  match o with
  | some ts =>
    if ts.length > 0 then
      l.filter (fun m => ts.any (fun tag => m.tags.contains tag))
    else l
  | none => l

/-- `searchManga(query, filters)` (script.js 221–250).  The text filter runs
only for a truthy (non-empty) query; the status and type filters only for
truthy (non-empty) filter values; the tag filter only for a non-empty tag
list. -/
def searchManga (query : String) (f : SearchFilters) (s : Store) : List Manga :=
  let results := s.manga
  let results :=
    if query = "" then results
    else results.filter (textMatches (lowerChars query))
  let results := filterByStatus (jsOrNullStr f.status) results
  let results := filterByType (jsOrNullStr f.type) results
  filterByTags f.tags results

/-! ### Operation sequences over the Record Store -/

/-- One Record Store mutation, with the nondeterministic inputs (current
time, generated id) recorded in the operation. -/
inductive Op where
  | create (now newId : Nat) (d : MangaData)
  | update (now id : Nat) (p : MangaPatch)
  | remove (id : Nat)
  | start (now newId : Nat) (mangaId : Option Nat)
  | stop (now sid : Nat) (c : Int)
  | bookmark (now newId : Nat) (mangaId : Option Nat) (ch : Int) (note : String)
  | unbookmark (id : Nat)
  | recordHistory (now newId : Nat) (mangaId : Option Nat) (action : String)
      (details : List (String × String))

/-- Apply one Record Store operation, discarding the returned record. -/
def applyOp (op : Op) (s : Store) : Store :=
  match op with
  | .create now newId d => (addManga now newId d s).2
  | .update now id p => (updateManga now id p s).2
  | .remove id => (deleteManga id s).2
  | .start now newId mid => (startReadingSession now newId mid s).2
  | .stop now sid c => (endReadingSession now sid c s).2
  | .bookmark now newId mid ch note => (addBookmark now newId mid ch note s).2
  | .unbookmark id => (removeBookmark id s).2
  | .recordHistory now newId mid action details =>
      (addToHistory now newId mid action details s).2

/-- Apply one operation under the Session Timer discipline: a session is
started only when `getActiveSession()` reports none (the check-then-act of
`UIController.toggleTimer`). -/
def applyOpGuarded (op : Op) (s : Store) : Store :=
  match op with
  | .start now newId mid =>
    match getActiveSession s with
    | some _ => s
    | none => (startReadingSession now newId mid s).2
  | _ => applyOp op s

/-- Run a sequence of operations under the Session Timer discipline. -/
def runGuarded (ops : List Op) (s : Store) : Store :=
  ops.foldl (fun st op => applyOpGuarded op st) s

/-- Run a sequence of raw Record Store operations. -/
def runOps (ops : List Op) (s : Store) : Store :=
  ops.foldl (fun st op => applyOp op st) s

/-- The number of sessions with `active = true` in a session list. -/
def countActive (l : List Session) : Nat :=
  (l.filter (fun sess => sess.active)).length

/-- The number of active sessions in the store. -/
def activeCount (s : Store) : Nat :=
  countActive s.readingSessions

/-! ### Concrete fixtures used by witnesses and scenarios -/

/-- A concrete title record used by concrete test stores. -/
def demoManga : Manga :=
  { id := 7
    title := "Solo Leveling"
    type := "manhwa"
    status := "reading"
    currentChapter := 0
    totalChapters := some 200
    rating := none
    tags := []
    notes := ""
    coverImage := none
    author := ""
    startDate := 0
    endDate := none
    lastRead := none
    createdAt := 0
    updatedAt := 0 }

/-- A concrete active session bound to `demoManga`. -/
def demoSession : Session :=
  { id := 3
    mangaId := some 7
    startTime := 100
    endTime := none
    chaptersRead := 0
    active := true }

/-- A store holding `demoManga` and `demoSession`. -/
def demoStore : Store :=
  { emptyStore with manga := [demoManga], readingSessions := [demoSession] }

/-- "Sword Art" with status `reading` (search scenario). -/
def swordReading : Manga :=
  { demoManga with
    id := 1
    title := "Sword Art"
    type := "manga"
    status := "reading"
    totalChapters := none }

/-- "Sword Art" with status `completed` (search scenario). -/
def swordCompleted : Manga :=
  { swordReading with id := 2, status := "completed" }

/-- The two-title store of the search scenario. -/
def swordStore : Store :=
  { emptyStore with manga := [swordReading, swordCompleted] }

/-- A store with a single closed two-minute session (statistics witness). -/
def statStore : Store :=
  { emptyStore with
    readingSessions :=
      [{ id := 1, mangaId := none, startTime := 0, endTime := some 120000,
         chaptersRead := 3, active := false }] }

/-- The history entry produced by the i-th call of the 101-call scenario. -/
def scenarioEntry (i : Nat) : HistoryEntry :=
  { id := i, mangaId := none, action := "read", details := [], timestamp := i }

/-- 101 `addToHistory` calls on a fresh store. -/
def historyScenario : Store :=
  runOps ((List.range 101).map (fun i => Op.recordHistory i i none "read" [])) emptyStore

/-! ## Helper lemmas -/

@[simp] theorem closeSession_id (now : Nat) (c : Int) (sess : Session) :
    (closeSession now c sess).id = sess.id := rfl

@[simp] theorem closeSession_mangaId (now : Nat) (c : Int) (sess : Session) :
    (closeSession now c sess).mangaId = sess.mangaId := rfl

@[simp] theorem closeSession_startTime (now : Nat) (c : Int) (sess : Session) :
    (closeSession now c sess).startTime = sess.startTime := rfl

@[simp] theorem closeSession_endTime (now : Nat) (c : Int) (sess : Session) :
    (closeSession now c sess).endTime = some now := rfl

@[simp] theorem closeSession_chaptersRead (now : Nat) (c : Int) (sess : Session) :
    (closeSession now c sess).chaptersRead = c := rfl

@[simp] theorem closeSession_active (now : Nat) (c : Int) (sess : Session) :
    (closeSession now c sess).active = false := rfl

theorem countActive_endSessionList_le (now sid : Nat) (c : Int)
    (l : List Session) : countActive (endSessionList now sid c l).2 ≤ countActive l := by
  induction l with
  | nil => simp [endSessionList, countActive]
  | cons sess rest ih =>
    simp only [endSessionList]
    by_cases h : sess.id = sid
    · simp only [if_pos h]
      simp only [countActive, List.filter_cons]
      cases ha : sess.active <;> simp
    · simp only [if_neg h]
      simp only [countActive, List.filter_cons]
      cases ha : sess.active <;> simp <;> exact ih

theorem endReadingSession_countActive_le (now sid : Nat) (c : Int) (s : Store) :
    activeCount (endReadingSession now sid c s).2 ≤ activeCount s := by
  unfold endReadingSession
  have key := countActive_endSessionList_le now sid c s.readingSessions
  cases hE : endSessionList now sid c s.readingSessions with
  | mk r1 r2 =>
    rw [hE] at key
    cases r1 with
    | none => simp [activeCount]
    | some sess2 =>
      simp only
      cases sess2.mangaId with
      | none => exact key
      | some mid =>
        by_cases hc : c > 0
        · simp only [if_pos hc]
          cases getManga mid { s with readingSessions := r2 } with
          | none => exact key
          | some manga => exact key
        · simp only [if_neg hc]; exact key

theorem no_active_filter_nil (s : Store) (h : getActiveSession s = none) :
    s.readingSessions.filter (fun sess => sess.active) = [] := by
  have hall := List.find?_eq_none.mp h
  exact List.filter_eq_nil_iff.mpr hall

theorem applyOpGuarded_active_le_one (op : Op) (s : Store)
    (h : activeCount s ≤ 1) : activeCount (applyOpGuarded op s) ≤ 1 := by
  cases op with
  | start now newId mid =>
    simp only [applyOpGuarded]
    cases hval : getActiveSession s with
    | some sess => exact h
    | none =>
      have h0 := no_active_filter_nil s hval
      simp [startReadingSession, activeCount, countActive, List.filter_append, h0]
  | create now newId d => exact h
  | update now id p => exact h
  | remove id => exact h
  | stop now sid c =>
    exact le_trans (endReadingSession_countActive_le now sid c s) h
  | bookmark now newId mid ch note => exact h
  | unbookmark id => exact h
  | recordHistory now newId mid action details => exact h

theorem endSessionList_of_find?_none (now sid : Nat) (c : Int) (l : List Session)
    (h : l.find? (fun x => x.id = sid) = none) :
    endSessionList now sid c l = (none, l) := by
  induction l with
  | nil => rfl
  | cons a rest ih =>
    by_cases hid : a.id = sid
    · rw [List.find?_cons_of_pos _ (by simp [hid])] at h
      cases h
    · rw [List.find?_cons_of_neg _ (by simp [hid])] at h
      simp [endSessionList, if_neg hid, ih h]

theorem endSessionList_of_find?_some (now sid : Nat) (c : Int)
    (l : List Session) (sess : Session)
    (h : l.find? (fun x => x.id = sid) = some sess) :
    ∃ l2, endSessionList now sid c l = (some (closeSession now c sess), l2) ∧
      l2.find? (fun x => x.id = sid) = some (closeSession now c sess) := by
  induction l with
  | nil => cases h
  | cons a rest ih =>
    by_cases hid : a.id = sid
    · rw [List.find?_cons_of_pos _ (by simp [hid])] at h
      injection h with h'
      subst h'
      refine ⟨closeSession now c a :: rest, ?_, ?_⟩
      · simp [endSessionList, if_pos hid]
      · rw [List.find?_cons_of_pos _ (by simp [hid])]
    · rw [List.find?_cons_of_neg _ (by simp [hid])] at h
      obtain ⟨l2, h1, h2⟩ := ih h
      refine ⟨a :: l2, ?_, ?_⟩
      · simp [endSessionList, if_neg hid, h1]
      · rw [List.find?_cons_of_neg _ (by simp [hid])]
        exact h2

theorem applyPatch_id (p : MangaPatch) (m : Manga) (now : Nat) (hp : p.id = none) :
    (applyPatch p m now).id = m.id := by
  simp [applyPatch, hp]

theorem updateMangaList_of_find?_none (now id : Nat) (p : MangaPatch) (l : List Manga)
    (h : l.find? (fun m => m.id = id) = none) :
    updateMangaList now id p l = (none, l) := by
  induction l with
  | nil => rfl
  | cons a rest ih =>
    by_cases hid : a.id = id
    · rw [List.find?_cons_of_pos _ (by simp [hid])] at h
      cases h
    · rw [List.find?_cons_of_neg _ (by simp [hid])] at h
      simp [updateMangaList, if_neg hid, ih h]

theorem updateMangaList_of_find?_some (now id : Nat) (p : MangaPatch) (hp : p.id = none)
    (l : List Manga) (t : Manga)
    (h : l.find? (fun m => m.id = id) = some t) :
    ∃ l2, updateMangaList now id p l = (some (applyPatch p t now), l2) ∧
      l2.find? (fun m => m.id = id) = some (applyPatch p t now) := by
  induction l with
  | nil => cases h
  | cons a rest ih =>
    by_cases hid : a.id = id
    · rw [List.find?_cons_of_pos _ (by simp [hid])] at h
      injection h with h'
      subst h'
      refine ⟨applyPatch p a now :: rest, ?_, ?_⟩
      · simp [updateMangaList, if_pos hid]
      · rw [List.find?_cons_of_pos _ (by simp [applyPatch_id p a now hp, hid])]
    · rw [List.find?_cons_of_neg _ (by simp [hid])] at h
      obtain ⟨l2, h1, h2⟩ := ih h
      refine ⟨a :: l2, ?_, ?_⟩
      · simp [updateMangaList, if_neg hid, h1]
      · rw [List.find?_cons_of_neg _ (by simp [hid])]
        exact h2

theorem deleteMangaList_of_find?_none (id : Nat) (l : List Manga)
    (h : l.find? (fun m => m.id = id) = none) :
    deleteMangaList id l = (none, l) := by
  induction l with
  | nil => rfl
  | cons a rest ih =>
    by_cases hid : a.id = id
    · rw [List.find?_cons_of_pos _ (by simp [hid])] at h
      cases h
    · rw [List.find?_cons_of_neg _ (by simp [hid])] at h
      simp [deleteMangaList, if_neg hid, ih h]

theorem deleteMangaList_of_find?_some (id : Nat) (l : List Manga) (t : Manga)
    (hnodup : (l.map (fun m => m.id)).Nodup)
    (h : l.find? (fun m => m.id = id) = some t) :
    (deleteMangaList id l).1 = some t ∧
    (deleteMangaList id l).2.find? (fun m => m.id = id) = none ∧
    (deleteMangaList id l).2.length + 1 = l.length := by
  induction l with
  | nil => cases h
  | cons a rest ih =>
    rw [List.map_cons, List.nodup_cons] at hnodup
    obtain ⟨hnotin, hrest⟩ := hnodup
    by_cases hid : a.id = id
    · rw [List.find?_cons_of_pos _ (by simp [hid])] at h
      injection h with h'
      subst h'
      refine ⟨by simp [deleteMangaList, if_pos hid], ?_,
        by simp [deleteMangaList, if_pos hid]⟩
      simp only [deleteMangaList, if_pos hid]
      rw [List.find?_eq_none]
      intro x hx
      simp only [decide_eq_true_eq]
      intro hxid
      exact hnotin (by rw [hid, ← hxid] at hnotin ⊢; exact List.mem_map_of_mem _ hx)
    · rw [List.find?_cons_of_neg _ (by simp [hid])] at h
      obtain ⟨h1, h2, h3⟩ := ih hrest h
      refine ⟨?_, ?_, ?_⟩
      · simp [deleteMangaList, if_neg hid, h1]
      · simp only [deleteMangaList, if_neg hid]
        rw [List.find?_cons_of_neg _ (by simp [hid])]
        exact h2
      · simp only [deleteMangaList, if_neg hid, List.length_cons]
        omega

theorem find?_append_fresh (l : List Manga) (x : Manga) (i : Nat)
    (h : ∀ m ∈ l, m.id ≠ i) (hx : x.id = i) :
    (l ++ [x]).find? (fun m => m.id = i) = some x := by
  rw [List.find?_append]
  have hnone : l.find? (fun m => m.id = i) = none := by
    rw [List.find?_eq_none]
    intro m hm
    simp [h m hm]
  rw [hnone, List.find?_cons_of_pos _ (by simp [hx])]
  rfl

theorem historyTruncate_eq_take (l : List HistoryEntry) :
    (if l.length > 100 then l.take 100 else l) = l.take 100 := by
  split
  · rfl
  · rename_i h
    exact (List.take_of_length_le (by omega)).symm

@[simp] theorem getManga_set_sessions (tid : Nat) (s : Store) (l : List Session) :
    getManga tid { s with readingSessions := l } = getManga tid s := rfl

theorem endReadingSession_master (now sid : Nat) (c : Int) (s : Store)
    (sess : Session) (tid : Nat) (t : Manga)
    (h1 : s.readingSessions.find? (fun x => x.id = sid) = some sess)
    (h2 : sess.mangaId = some tid)
    (h3 : getManga tid s = some t)
    (hc : 0 < c) :
    (endReadingSession now sid c s).1 = some (closeSession now c sess) ∧
    (endReadingSession now sid c s).2.readingSessions.find? (fun x => x.id = sid) =
      some (closeSession now c sess) ∧
    getManga tid (endReadingSession now sid c s).2 =
      some (applyPatch
        { currentChapter := some (t.currentChapter + c),
          lastRead := some (some now) } t now) := by
  obtain ⟨l2, hE, hFind⟩ := endSessionList_of_find?_some now sid c s.readingSessions sess h1
  have ht : t.id = tid := by
    have := List.find?_some h3
    simpa using this
  obtain ⟨l3, hU, hUF⟩ :=
    updateMangaList_of_find?_some now tid
      { currentChapter := some (t.currentChapter + c), lastRead := some (some now) }
      rfl s.manga t h3
  have hcall : endReadingSession now sid c s =
      (some (closeSession now c sess), { s with readingSessions := l2, manga := l3 }) := by
    simp only [endReadingSession, hE, closeSession_mangaId, h2]
    rw [if_pos hc]
    rw [show getManga tid { s with readingSessions := l2 } = some t from h3]
    simp only [ht, updateManga, hU]
  refine ⟨?_, ?_, ?_⟩
  · rw [hcall]
  · rw [hcall]
    exact hFind
  · rw [hcall]
    exact hUF

/-! ## Claim theorems -/

/-- C1 (counterexample): starting two sessions through raw Record Store
operations yields a reachable store with two `active = true` sessions, so the
claimed invariant fails for arbitrary operation sequences. -/
theorem startReadingSession_breaks_single_active :
    activeCount (runOps [Op.start 10 1 none, Op.start 20 2 none] emptyStore) = 2 := by
  decide

/-- C1 (amended): at most one session is active provided every `startSession`
is guarded by a `getActiveSession` check (the Session Timer discipline);
`startReadingSession` itself never deactivates existing sessions. -/
theorem runGuarded_at_most_one_active (ops : List Op) (s : Store)
    (h : activeCount s ≤ 1) : activeCount (runGuarded ops s) ≤ 1 := by
  induction ops generalizing s with
  | nil => exact h
  | cons op rest ih => exact ih _ (applyOpGuarded_active_le_one op s h)

/-- C1 witness: a concrete guarded run from the fresh store keeps at most one
session active. -/
theorem runGuarded_at_most_one_active_witness :
    activeCount (runGuarded [Op.start 10 1 none, Op.start 20 2 none] emptyStore) ≤ 1 :=
  runGuarded_at_most_one_active [Op.start 10 1 none, Op.start 20 2 none] emptyStore
    (by decide)

set_option maxRecDepth 100000 in
/-- C3: `addToHistory` prepends the new entry and truncates to 100 entries;
101 calls on a fresh store leave exactly 100 entries, newest first. -/
theorem addToHistory_cap_spec :
    (∀ now newId mid action details s,
      ((addToHistory now newId mid action details s).2).history =
        ((addToHistory now newId mid action details s).1 :: s.history).take 100) ∧
    (∀ now newId mid action details s,
      (addToHistory now newId mid action details s).1 =
        { id := newId, mangaId := mid, action := action, details := details,
          timestamp := now }) ∧
    historyScenario.history.length = 100 ∧
    historyScenario.history =
      (List.range 100).reverse.map (fun i => scenarioEntry (i + 1)) := by
  refine ⟨?_, ?_, ?_, ?_⟩
  · intro now newId mid action details s
    simp only [addToHistory]
    exact historyTruncate_eq_take _
  · intro now newId mid action details s
    rfl
  · rfl
  · rfl

/-- C10: `deleteManga` touches only the titles collection; sessions,
bookmarks, history, the tag catalog and settings are untouched (no cascading
delete of records referencing the deleted title). -/
theorem deleteManga_frame (id : Nat) (s : Store) :
    (deleteManga id s).2.readingSessions = s.readingSessions ∧
    (deleteManga id s).2.bookmarks = s.bookmarks ∧
    (deleteManga id s).2.history = s.history ∧
    (deleteManga id s).2.tags = s.tags ∧
    (deleteManga id s).2.settings = s.settings :=
  ⟨rfl, rfl, rfl, rfl, rfl⟩

/-- C2: closing a found session bound to an existing title returns the closed
session (`active = false`, `endTime = now`, `chaptersRead = c`) and, for
`c > 0`, advances that title's `currentChapter` by exactly `c` while stamping
`lastRead`; when no session has the id, the call returns the sentinel and the
store is unchanged. -/
theorem endReadingSession_spec (now sid : Nat) (c : Int) (s : Store) :
    (∀ (sess : Session) (tid : Nat) (t : Manga),
      s.readingSessions.find? (fun x => x.id = sid) = some sess →
      sess.mangaId = some tid →
      getManga tid s = some t →
      0 < c →
      ∃ closed, (endReadingSession now sid c s).1 = some closed ∧
        closed.active = false ∧ closed.endTime = some now ∧
        closed.chaptersRead = c ∧
        ∃ t2, getManga tid (endReadingSession now sid c s).2 = some t2 ∧
          t2.currentChapter = t.currentChapter + c ∧
          t2.lastRead = some now ∧ t2.updatedAt = now) ∧
    (s.readingSessions.find? (fun x => x.id = sid) = none →
      endReadingSession now sid c s = (none, s)) := by
  constructor
  · intro sess tid t h1 h2 h3 hc
    obtain ⟨e1, e2, e3⟩ := endReadingSession_master now sid c s sess tid t h1 h2 h3 hc
    exact ⟨closeSession now c sess, e1, rfl, rfl, rfl,
      applyPatch _ t now, e3, rfl, rfl, rfl⟩
  · intro h
    have hE := endSessionList_of_find?_none now sid c s.readingSessions h
    simp [endReadingSession, hE]

/-- C2 witness: on a concrete store, ending session 3 with 5 chapters closes
it and advances title 7 from chapter 0 to 5. -/
theorem endReadingSession_spec_witness :
    ∃ closed, (endReadingSession 200 3 5 demoStore).1 = some closed ∧
      closed.active = false ∧ closed.endTime = some 200 ∧ closed.chaptersRead = 5 ∧
      ∃ t2, getManga 7 (endReadingSession 200 3 5 demoStore).2 = some t2 ∧
        t2.currentChapter = demoManga.currentChapter + 5 ∧
        t2.lastRead = some 200 ∧ t2.updatedAt = 200 :=
  (endReadingSession_spec 200 3 5 demoStore).1 demoSession 7 demoManga
    (by decide) (by decide) (by decide) (by decide)

/-- C4: updating a found title merges the field, refreshes `updatedAt` (so it
is strictly larger whenever the clock has advanced), and the updated record
is what `getManga` then returns; updating a missing id returns the sentinel
and leaves the store unchanged. -/
theorem updateManga_spec (now id : Nat) (s : Store) :
    (∀ (v : String) (t : Manga),
      getManga id s = some t → t.updatedAt < now →
      ∃ t2, (updateManga now id { status := some v } s).1 = some t2 ∧
        getManga id (updateManga now id { status := some v } s).2 = some t2 ∧
        t2.status = v ∧ t2.updatedAt = now ∧ t.updatedAt < t2.updatedAt) ∧
    (∀ p : MangaPatch, getManga id s = none →
      updateManga now id p s = (none, s)) := by
  constructor
  · intro v t hfind hlt
    obtain ⟨l2, h1, h2⟩ :=
      updateMangaList_of_find?_some now id { status := some v } rfl s.manga t hfind
    refine ⟨applyPatch { status := some v } t now, ?_, ?_, rfl, rfl, hlt⟩
    · simp [updateManga, h1]
    · show (updateMangaList now id { status := some v } s.manga).2.find? _ = _
      rw [h1]
      exact h2
  · intro p hnone
    have h := updateMangaList_of_find?_none now id p s.manga hnone
    simp [updateManga, h]

/-- C4 witness: on a concrete store, setting title 7's status at time 50
yields status `on-hold` and a strictly larger `updatedAt`. -/
theorem updateManga_spec_witness :
    ∃ t2, (updateManga 50 7 { status := some "on-hold" } demoStore).1 = some t2 ∧
      getManga 7 (updateManga 50 7 { status := some "on-hold" } demoStore).2 = some t2 ∧
      t2.status = "on-hold" ∧ t2.updatedAt = 50 ∧ demoManga.updatedAt < t2.updatedAt :=
  (updateManga_spec 50 7 demoStore).1 "on-hold" demoManga (by decide) (by decide)

/-- C9: `endReadingSession` is not guarded by `active`: closing the same
session twice succeeds both times, re-stamps `endedAt`, and advances the
bound title's progress again, for `2 * c` in total. -/
theorem endReadingSession_not_idempotent (now1 now2 sid : Nat) (c : Int) (s : Store)
    (sess : Session) (tid : Nat) (t : Manga)
    (h1 : s.readingSessions.find? (fun x => x.id = sid) = some sess)
    (h2 : sess.mangaId = some tid)
    (h3 : getManga tid s = some t)
    (hc : 0 < c) :
    ((endReadingSession now1 sid c s).2.readingSessions.find? (fun x => x.id = sid) =
        some (closeSession now1 c sess)) ∧
    (closeSession now1 c sess).active = false ∧
    (endReadingSession now2 sid c (endReadingSession now1 sid c s).2).1 =
      some (closeSession now2 c (closeSession now1 c sess)) ∧
    (closeSession now2 c (closeSession now1 c sess)).endTime = some now2 ∧
    ∃ t2, getManga tid (endReadingSession now2 sid c (endReadingSession now1 sid c s).2).2 =
        some t2 ∧ t2.currentChapter = t.currentChapter + 2 * c := by
  obtain ⟨e1, e2, e3⟩ := endReadingSession_master now1 sid c s sess tid t h1 h2 h3 hc
  obtain ⟨f1, f2, f3⟩ := endReadingSession_master now2 sid c _ (closeSession now1 c sess)
    tid _ e2 (by simp [h2]) e3 hc
  refine ⟨e2, rfl, f1, rfl, _, f3, ?_⟩
  simp only [applyPatch, Option.getD_some]
  ring

/-- C9 witness: closing session 3 twice on a concrete store advances title 7
by 10 chapters in total. -/
theorem endReadingSession_not_idempotent_witness :
    ∃ t2, getManga 7 (endReadingSession 300 3 5 (endReadingSession 200 3 5 demoStore).2).2 =
        some t2 ∧ t2.currentChapter = demoManga.currentChapter + 2 * 5 :=
  (endReadingSession_not_idempotent 200 300 3 5 demoStore demoSession 7 demoManga
    (by decide) (by decide) (by decide) (by decide)).2.2.2.2

/-- C7: `addManga` builds a record with the supplied fresh id, applies the
documented defaults for absent fields, stamps `createdAt = updatedAt = now`,
appends unconditionally (no name-uniqueness check), and preserves id
uniqueness. -/
theorem addManga_spec (now newId : Nat) (d : MangaData) (s : Store)
    (hfresh : ∀ m ∈ s.manga, m.id ≠ newId) :
    (addManga now newId d s).1.id = newId ∧
    (d.type = none → (addManga now newId d s).1.type = "manga") ∧
    (d.status = none → (addManga now newId d s).1.status = "reading") ∧
    (d.currentChapter = none → (addManga now newId d s).1.currentChapter = 0) ∧
    (d.tags = none → (addManga now newId d s).1.tags = []) ∧
    (d.startDate = none → (addManga now newId d s).1.startDate = now) ∧
    (addManga now newId d s).1.createdAt = now ∧
    (addManga now newId d s).1.updatedAt = now ∧
    (addManga now newId d s).2.manga = s.manga ++ [(addManga now newId d s).1] ∧
    getManga newId (addManga now newId d s).2 = some (addManga now newId d s).1 ∧
    ((s.manga.map (fun m => m.id)).Nodup →
      ((addManga now newId d s).2.manga.map (fun m => m.id)).Nodup) := by
  refine ⟨rfl, ?_, ?_, ?_, ?_, ?_, rfl, rfl, rfl, ?_, ?_⟩
  · intro h; simp [addManga, jsOrStr, h]
  · intro h; simp [addManga, jsOrStr, h]
  · intro h; simp [addManga, jsOrInt, h]
  · intro h; simp [addManga, h]
  · intro h; simp [addManga, h]
  · exact find?_append_fresh s.manga _ newId hfresh rfl
  · intro hnodup
    rw [show (addManga now newId d s).2.manga = s.manga ++ [(addManga now newId d s).1]
        from rfl,
      List.map_append, List.nodup_append]
    refine ⟨hnodup, by simp, ?_⟩
    intro a ha hb
    simp only [List.map_cons, List.map_nil, List.mem_singleton] at hb
    obtain ⟨m, hm, rfl⟩ := List.mem_map.mp ha
    exact hfresh m hm (by simpa using hb)

/-- C7 witness: creating a title in the fresh store with a fresh id applies
the defaults and appends the record. -/
theorem addManga_spec_witness :
    (addManga 5 42 { title := "Solo Leveling" } emptyStore).1.id = 42 ∧
    (addManga 5 42 { title := "Solo Leveling" } emptyStore).1.type = "manga" ∧
    (addManga 5 42 { title := "Solo Leveling" } emptyStore).1.status = "reading" ∧
    (addManga 5 42 { title := "Solo Leveling" } emptyStore).1.currentChapter = 0 ∧
    (addManga 5 42 { title := "Solo Leveling" } emptyStore).1.tags = [] ∧
    (addManga 5 42 { title := "Solo Leveling" } emptyStore).1.startDate = 5 ∧
    (addManga 5 42 { title := "Solo Leveling" } emptyStore).1.createdAt = 5 ∧
    (addManga 5 42 { title := "Solo Leveling" } emptyStore).1.updatedAt = 5 ∧
    getManga 42 (addManga 5 42 { title := "Solo Leveling" } emptyStore).2 =
      some (addManga 5 42 { title := "Solo Leveling" } emptyStore).1 := by
  have h := addManga_spec 5 42 { title := "Solo Leveling" } emptyStore (by decide)
  exact ⟨h.1, h.2.1 rfl, h.2.2.1 rfl, h.2.2.2.1 rfl, h.2.2.2.2.1 rfl,
    h.2.2.2.2.2.1 rfl, h.2.2.2.2.2.2.1, h.2.2.2.2.2.2.2.1, h.2.2.2.2.2.2.2.2.2.1⟩

/-- C8: deleting a found title (ids unique) returns the removed record and
makes `getManga` report the sentinel afterwards; deleting a missing id
returns the sentinel with the store unchanged. -/
theorem deleteManga_spec (id : Nat) (s : Store)
    (hnodup : (s.manga.map (fun m => m.id)).Nodup) :
    (∀ t, getManga id s = some t →
      (deleteManga id s).1 = some t ∧
      getManga id (deleteManga id s).2 = none ∧
      (deleteManga id s).2.manga.length + 1 = s.manga.length) ∧
    (getManga id s = none → deleteManga id s = (none, s)) := by
  constructor
  · intro t h
    obtain ⟨h1, h2, h3⟩ := deleteMangaList_of_find?_some id s.manga t hnodup h
    exact ⟨h1, h2, h3⟩
  · intro h
    have hD := deleteMangaList_of_find?_none id s.manga h
    simp [deleteManga, hD]

/-- C8 witness: deleting title 7 from a concrete store returns it and a
subsequent lookup yields the sentinel. -/
theorem deleteManga_spec_witness :
    (deleteManga 7 demoStore).1 = some demoManga ∧
    getManga 7 (deleteManga 7 demoStore).2 = none ∧
    (deleteManga 7 demoStore).2.manga.length + 1 = demoStore.manga.length :=
  (deleteManga_spec 7 demoStore (by decide)).1 demoManga (by decide)

theorem mem_filterByStatus (o : Option String) (l : List Manga) (m : Manga) :
    m ∈ filterByStatus o l ↔ m ∈ l ∧ ∀ st, o = some st → m.status = st := by
  cases o with
  | none => simp [filterByStatus]
  | some st => simp [filterByStatus, List.mem_filter]

theorem mem_filterByType (o : Option String) (l : List Manga) (m : Manga) :
    m ∈ filterByType o l ↔ m ∈ l ∧ ∀ ty, o = some ty → m.type = ty := by
  cases o with
  | none => simp [filterByType]
  | some ty => simp [filterByType, List.mem_filter]

theorem mem_filterByTags (o : Option (List String)) (l : List Manga) (m : Manga) :
    m ∈ filterByTags o l ↔
      m ∈ l ∧ ∀ ts, o = some ts → 0 < ts.length →
        ts.any (fun tag => m.tags.contains tag) = true := by
  cases o with
  | none => simp [filterByTags]
  | some ts =>
    by_cases h : ts.length > 0
    · simp [filterByTags, if_pos h, List.mem_filter, h]
    · simp [filterByTags, if_neg h, h]

/-- C5: for a non-empty query, `searchManga` returns exactly the titles that
match the query case-insensitively on title, author or a tag and pass the
optional exact-match status/type filters and the any-tag filter; the concrete
"sword" scenario returns exactly the `reading` title. -/
theorem searchManga_spec :
    (∀ (q : String) (f : SearchFilters) (s : Store) (m : Manga), q ≠ "" →
      (m ∈ searchManga q f s ↔
        m ∈ s.manga ∧ textMatches (lowerChars q) m = true ∧
        (∀ st, jsOrNullStr f.status = some st → m.status = st) ∧
        (∀ ty, jsOrNullStr f.type = some ty → m.type = ty) ∧
        (∀ ts, f.tags = some ts → 0 < ts.length →
          ts.any (fun tag => m.tags.contains tag) = true))) ∧
    searchManga "sword" { status := some "reading" } swordStore = [swordReading] := by
  constructor
  · intro q f s m hq
    simp only [searchManga, if_neg hq]
    rw [mem_filterByTags, mem_filterByType, mem_filterByStatus, List.mem_filter]
    tauto
  · decide

/-- C5 witness: in the "sword" scenario, the reading title is in the result
and (by the characterization) matches the query and the status filter. -/
theorem searchManga_spec_witness :
    swordReading ∈ swordStore.manga ∧
    textMatches (lowerChars "sword") swordReading = true ∧
    swordReading.status = "reading" := by
  have h := (searchManga_spec.1 "sword" { status := some "reading" } swordStore
    swordReading (by decide)).mp (by decide)
  exact ⟨h.1, h.2.1, h.2.2.1 "reading" rfl⟩

/-- C6: statistics on the empty store are all zero with no division by zero;
`averageSessionTime` is 0 with no closed sessions and otherwise the rounded
mean, in minutes, of `endTime - startTime` over closed sessions (`jsRound`
being nearest-integer division). -/
theorem getStatistics_spec :
    (∀ now, getStatistics now emptyStore =
      { totalManga := 0, currentlyReading := 0, completed := 0, onHold := 0,
        dropped := 0, planToRead := 0, totalChaptersRead := 0,
        totalReadingSessions := 0, averageSessionTime := 0, dailyProgress := 0,
        weeklyProgress := 0, monthlyProgress := 0 }) ∧
    (∀ now s, closedSessions s = [] →
      (getStatistics now s).averageSessionTime = 0) ∧
    (∀ now s, closedSessions s ≠ [] →
      (getStatistics now s).averageSessionTime =
        jsRound (totalSessionTime (closedSessions s))
          (((closedSessions s).length : Int) * 60000)) ∧
    (∀ a b : Int, 0 < b →
      2 * b * jsRound a b ≤ 2 * a + b ∧ 2 * a - b < 2 * b * jsRound a b) := by
  refine ⟨?_, ?_, ?_, ?_⟩
  · intro now
    rfl
  · intro now s h
    simp [getStatistics, calculateAverageSessionTime, h]
  · intro now s h
    have hlen : (closedSessions s).length ≠ 0 := by
      simpa [List.length_eq_zero] using h
    simp [getStatistics, calculateAverageSessionTime, hlen]
  · intro a b hb
    have hb2 : (0 : Int) < 2 * b := by linarith
    have hq : jsRound a b = (2 * a + b) / (2 * b) := by
      unfold jsRound
      rw [Int.fdiv_eq_ediv _ (le_of_lt hb2)]
    have h1 := Int.ediv_add_emod (2 * a + b) (2 * b)
    have h2 := Int.emod_nonneg (2 * a + b) (ne_of_gt hb2)
    have h3 := Int.emod_lt_of_pos (2 * a + b) hb2
    constructor <;> rw [hq] <;> linarith

/-- C6 witness: the empty store's average is 0; a store with one closed
two-minute session has the rounded-mean average; `jsRound` obeys the
nearest-integer bound at a concrete input. -/
theorem getStatistics_spec_witness :
    (getStatistics 0 emptyStore).averageSessionTime = 0 ∧
    (getStatistics 5 statStore).averageSessionTime =
      jsRound (totalSessionTime (closedSessions statStore))
        (((closedSessions statStore).length : Int) * 60000) ∧
    2 * 60000 * jsRound 120000 60000 ≤ 2 * 120000 + 60000 :=
  ⟨getStatistics_spec.2.1 0 emptyStore rfl,
   getStatistics_spec.2.2.1 5 statStore (by decide),
   (getStatistics_spec.2.2.2 120000 60000 (by decide)).1⟩

end MangaTrack
